import Mathlib

/-! # Conversion helpers of the kubelet's docker tools

A shallow embedding of `pkg/kubelet/dockertools/convert.go`: the functions that turn
records of the docker client (`docker.APIContainers`, `docker.APIImages`) and the kubelet's
`kubecontainer.RawContainerStatus` into the kubelet's runtime types and into
`api.ContainerStatus`.

Conventions of the embedding:

* a Go `string` is a Lean `String`; the two literals the code matches on are ASCII, so the
  byte slice `s[0:len(p)]` of `strings.HasPrefix` is the slice of the first characters;
* Go integers that are only copied (`int`, `int64`, `uint64`) are `Int` / `Nat`;
* a Go pointer is an `Option`: `none` is `nil`;
* a Go result pair `(*T, error)` is a pair `Option T × Option GoError`;
* a run-time panic (a nil dereference) is the outcome `none` of an outer `Option`.
-/

/-- A Go `error` value, identified by the text it reports. -/
structure GoError where
  msg : String
deriving DecidableEq, Repr

/-- An instant of Go's `time.Time`: seconds and nanoseconds. -/
structure GoTime where
  sec : Int
  nsec : Int
deriving DecidableEq, Repr

namespace fmt

/-- The call `fmt.Errorf(text)` with a format string that has no verbs. -/
def Errorf (text : String) : GoError := ⟨text⟩

end fmt

namespace strings

/-- Go's `strings.HasPrefix`:
`len(s) >= len(p) && s[0:len(p)] == p`. -/
def HasPrefix (s p : String) : Bool :=
  decide (s.length ≥ p.length) && decide (s.data.take p.length = p.data)

end strings

namespace unversioned

set_option linter.dupNamespace false in
/-- The wrapper `unversioned.Time` around `time.Time`. -/
structure Time where
  Time : GoTime
deriving DecidableEq, Repr

/-- The constructor `unversioned.NewTime`: it wraps its argument. -/
def NewTime (t : GoTime) : Time := ⟨t⟩

end unversioned

namespace kubecontainer

/-- The type `kubecontainer.ContainerStatus`, a Go string type. -/
abbrev ContainerStatus := String

/-- Modelled from the spec: the constant `kubecontainer.ContainerStatusRunning`, declared in
`pkg/kubelet/container/runtime.go`; the lifecycle state `Running`. -/
def ContainerStatusRunning : ContainerStatus := "running"

/-- Modelled from the spec: the constant `kubecontainer.ContainerStatusExited`, declared in
`pkg/kubelet/container/runtime.go`; the lifecycle state `Exited`. -/
def ContainerStatusExited : ContainerStatus := "exited"

/-- Modelled from the spec: the constant `kubecontainer.ContainerStatusUnknown`, declared in
`pkg/kubelet/container/runtime.go`; the lifecycle state `Unknown`. -/
def ContainerStatusUnknown : ContainerStatus := "unknown"

/-- Modelled from the spec: the type `kubecontainer.ContainerID`, declared in
`pkg/kubelet/container/runtime.go`: the engine's scheme tag and the identifier. -/
structure ContainerID where
  Type_ : String
  ID : String
deriving DecidableEq, Repr

/-- The fields of `kubecontainer.Container` that the conversion sets. -/
structure Container where
  ID : ContainerID
  Name : String
  Image : String
  Hash : Nat
  Created : Int
  Status : ContainerStatus
deriving DecidableEq, Repr

/-- The type `kubecontainer.Image`. -/
structure Image where
  ID : String
  Tags : List String
  Size : Int
deriving DecidableEq, Repr

/-- Modelled from the spec: the type `kubecontainer.RawContainerStatus`, declared in
`pkg/kubelet/container/runtime.go`; the fields are those the spec lists. -/
structure RawContainerStatus where
  ID : ContainerID
  Name : String
  RestartCount : Int
  Image : String
  ImageID : String
  Status : ContainerStatus
  StartedAt : GoTime
  FinishedAt : GoTime
  ExitCode : Int
  Reason : String
  Message : String
deriving DecidableEq, Repr

end kubecontainer

namespace kubetypes

/-- Modelled from the spec: the method `kubetypes.DockerID.ContainerID`, declared in
`pkg/kubelet/types/docker.go`: the identifier tagged with the scheme of the docker engine. -/
def DockerID.ContainerID (id : String) : kubecontainer.ContainerID :=
  { Type_ := "docker", ID := id }

end kubetypes

namespace docker

/-- The listing entry `docker.APIContainers` of the docker client library (the fields of
string and integer type that the kubelet reads). -/
structure APIContainers where
  ID : String
  Image : String
  Command : String
  Created : Int
  Status : String
  Names : List String
deriving DecidableEq, Repr

/-- The listing entry `docker.APIImages` of the docker client library. -/
structure APIImages where
  ID : String
  RepoTags : List String
  Created : Int
  Size : Int
  VirtualSize : Int
  ParentID : String
deriving DecidableEq, Repr

end docker

namespace api

/-- Modelled from the spec: the type `api.ContainerStateWaiting`, declared in
`pkg/api/types.go`. -/
structure ContainerStateWaiting where
  Reason : String := ""
  Message : String := ""
deriving DecidableEq, Repr

/-- Modelled from the spec: the type `api.ContainerStateRunning`, declared in
`pkg/api/types.go`. -/
structure ContainerStateRunning where
  StartedAt : unversioned.Time
deriving DecidableEq, Repr

/-- Modelled from the spec: the type `api.ContainerStateTerminated`, declared in
`pkg/api/types.go`. -/
structure ContainerStateTerminated where
  ExitCode : Int
  Signal : Int := 0
  Reason : String
  Message : String
  StartedAt : unversioned.Time
  FinishedAt : unversioned.Time
  ContainerID : String
deriving DecidableEq, Repr

/-- Modelled from the spec: the type `api.ContainerState`, declared in `pkg/api/types.go`:
three pointers, each `nil` unless set. -/
structure ContainerState where
  Waiting : Option ContainerStateWaiting := none
  Running : Option ContainerStateRunning := none
  Terminated : Option ContainerStateTerminated := none
deriving DecidableEq, Repr

/-- Modelled from the spec: the type `api.ContainerStatus`, declared in `pkg/api/types.go`;
the fields are those the spec lists. -/
structure ContainerStatus where
  Name : String
  State : ContainerState := {}
  RestartCount : Int
  Image : String
  ImageID : String
  ContainerID : String
deriving DecidableEq, Repr

end api

namespace dockertools

open kubecontainer

/-- Modelled from the spec: the constant `DockerPrefix` of this package, declared in
`pkg/kubelet/dockertools/docker.go`: the scheme of the docker engine before an identifier. -/
def DockerPrefix : String := "docker://"

/-- Modelled from the spec: the type `KubeletContainerName` of this package, declared in
`pkg/kubelet/dockertools/docker.go`: what the name of a docker container encodes. -/
structure KubeletContainerName where
  PodFullName : String
  PodUID : String
  ContainerName : String
deriving DecidableEq, Repr

/-- The results `(*KubeletContainerName, uint64, error)` of `getDockerContainerNameInfo`. -/
abbrev NameInfo := Option KubeletContainerName × Nat × Option GoError

/-- The function `mapStatus`: the status text of `docker.APIContainers` is matched
against the two literals, in this order. -/
def mapStatus (status : String) : ContainerStatus :=
  if strings.HasPrefix status "Up" then ContainerStatusRunning
  else if strings.HasPrefix status "Exited" then ContainerStatusExited
  else ContainerStatusUnknown

/-- The function `toRuntimeContainer`. The helper `getDockerContainerNameInfo` of this
package is declared in `docker.go` and is a parameter here. The outcome `none` is the panic
of `dockerName.ContainerName` on a nil `dockerName`. -/
def toRuntimeContainer (getDockerContainerNameInfo : docker.APIContainers → NameInfo)
    (c : Option docker.APIContainers) : Option (Option Container × Option GoError) :=
  match c with
  | none =>
    some (none, some (fmt.Errorf "unable to convert a nil pointer to a runtime container"))
  | some c =>
    match getDockerContainerNameInfo c with
    | (_, _, some err) => some (none, some err)
    | (none, _, none) => none
    | (some dockerName, hash, none) =>
      some (some
        { ID := kubetypes.DockerID.ContainerID c.ID
          Name := dockerName.ContainerName
          Image := c.Image
          Hash := hash
          Created := c.Created
          Status := mapStatus c.Status }, none)

/-- The function `toRuntimeImage`. -/
def toRuntimeImage (image : Option docker.APIImages) : Option Image × Option GoError :=
  match image with
  | none => (none, some (fmt.Errorf "unable to convert a nil pointer to a runtime image"))
  | some image =>
    (some
      { ID := image.ID
        Tags := image.RepoTags
        Size := image.VirtualSize }, none)

/-- The function `rawToAPIContainerStatus`. The outcome `none` is the panic of `raw.ID` on
a nil `raw`; otherwise the record behind the returned pointer `&status`. -/
def rawToAPIContainerStatus (raw : Option RawContainerStatus) : Option api.ContainerStatus :=
  match raw with
  | none => none
  | some raw =>
    let containerID := DockerPrefix ++ raw.ID.ID
    let status : api.ContainerStatus :=
      { Name := raw.Name
        RestartCount := raw.RestartCount
        Image := raw.Image
        ImageID := raw.ImageID
        ContainerID := containerID }
    if raw.Status = ContainerStatusRunning then
      some { status with
        State := { status.State with
          Running := some { StartedAt := unversioned.NewTime raw.StartedAt } } }
    else if raw.Status = ContainerStatusExited then
      some { status with
        State := { status.State with
          Terminated := some
            { ExitCode := raw.ExitCode
              Reason := raw.Reason
              Message := raw.Message
              StartedAt := unversioned.NewTime raw.StartedAt
              FinishedAt := unversioned.NewTime raw.FinishedAt
              ContainerID := containerID } } }
    else
      some { status with State := { status.State with Waiting := some {} } }

/-! ## Sample records -/

/-- A raw status record of a container that has exited. -/
def sampleRawExited : RawContainerStatus :=
  { ID := { Type_ := "docker", ID := "9f3a" }
    Name := "web"
    RestartCount := 2
    Image := "nginx:1.9"
    ImageID := "docker://sha-77"
    Status := ContainerStatusExited
    StartedAt := { sec := 1450000000, nsec := 5 }
    FinishedAt := { sec := 1450000600, nsec := 9 }
    ExitCode := 137
    Reason := "OOMKilled"
    Message := "killed" }

/-- A raw status record of a container that is running. -/
def sampleRawRunning : RawContainerStatus :=
  { sampleRawExited with Status := ContainerStatusRunning }

/-- A raw status record whose status is none of the three named constants. -/
def sampleRawOther : RawContainerStatus :=
  { sampleRawExited with Status := "paused" }

/-- A listing entry of a running container, with the name docker reports for it. -/
def sampleEntry : docker.APIContainers :=
  { ID := "9f3a"
    Image := "nginx:1.9"
    Command := "nginx -g"
    Created := 1450000000
    Status := "Up 5 minutes"
    Names := ["/k8s_web.1a2b_pod_default_uid_0"] }

/-- A listing entry that carries no name. -/
def sampleEntryUnnamed : docker.APIContainers :=
  { sampleEntry with Names := [] }

/-- A stand-in for `getDockerContainerNameInfo`: it fails on an entry without a name and
otherwise reports the first name with a fixed hash. -/
def sampleNameInfo (c : docker.APIContainers) : NameInfo :=
  match c.Names with
  | [] => (none, 0, some (fmt.Errorf "Docker container name is empty"))
  | name :: _ => (some { PodFullName := "pod_default", PodUID := "uid", ContainerName := name },
      6699, none)

/-- A listing entry of an image with an empty ID, no tag and a negative size. -/
def sampleImageEmpty : docker.APIImages :=
  { ID := "", RepoTags := [], Created := 0, Size := 0, VirtualSize := -1, ParentID := "" }

/-- A listing entry of an image with two tags. -/
def sampleImage : docker.APIImages :=
  { ID := "sha-77", RepoTags := ["nginx:1.9", "nginx:latest"], Created := 1440000000,
    Size := 1000, VirtualSize := 134000000, ParentID := "sha-76" }

/-- A listing entry whose ID is the empty string; it still carries a name. -/
def sampleEntryNoID : docker.APIContainers :=
  { sampleEntry with ID := "" }

/-- A raw status record that differs from `sampleRawExited` in the Type of its ID only. -/
def sampleRawExitedRkt : RawContainerStatus :=
  { sampleRawExited with ID := { Type_ := "rkt", ID := "9f3a" } }

/-- The classifier with its two tests in the other order, "Exited" before "Up"; it is
compared with `mapStatus`. -/
def mapStatusExitedFirst (status : String) : ContainerStatus :=
  if strings.HasPrefix status "Exited" then ContainerStatusExited
  else if strings.HasPrefix status "Up" then ContainerStatusRunning
  else ContainerStatusUnknown

end dockertools

/-! ## Lemmas on strings -/

theorem strings.hasPrefix_iff (s p : String) :
    strings.HasPrefix s p = true ↔ ∃ t : String, s = p ++ t := by
  unfold strings.HasPrefix
  simp only [Bool.and_eq_true, decide_eq_true_eq, String.length]
  constructor
  · rintro ⟨_, h⟩
    refine ⟨⟨s.data.drop p.data.length⟩, ?_⟩
    apply String.ext
    rw [String.data_append]
    calc s.data = s.data.take p.data.length ++ s.data.drop p.data.length :=
          (List.take_append_drop _ _).symm
      _ = p.data ++ s.data.drop p.data.length := by rw [h]
  · rintro ⟨t, rfl⟩
    simp [String.data_append]

theorem strings.up_exited_disjoint (s : String)
    (hu : ∃ t : String, s = "Up" ++ t) : ¬ ∃ t : String, s = "Exited" ++ t := by
  rintro ⟨t', ht'⟩
  obtain ⟨t, rfl⟩ := hu
  have h := congrArg String.data ht'
  simp only [String.data_append] at h
  have h0 := congrArg List.head? h
  simp at h0

theorem strings.hasPrefix_append (s t p : String) (h : strings.HasPrefix s p = true) :
    strings.HasPrefix (s ++ t) p = true := by
  obtain ⟨u, rfl⟩ := (strings.hasPrefix_iff s p).1 h
  exact (strings.hasPrefix_iff _ p).2 ⟨u ++ t, String.append_assoc p u t⟩

theorem strings.hasPrefix_take (s p : String) (n : Nat) (hn : p.length ≤ n) :
    strings.HasPrefix (String.mk (s.data.take n)) p = strings.HasPrefix s p := by
  have hp : p.data.length ≤ n := hn
  unfold strings.HasPrefix
  simp only [String.length, List.length_take, List.take_take, Nat.min_eq_left hp]
  congr 1
  apply decide_eq_decide.2
  constructor
  · intro h
    exact le_trans h (Nat.min_le_right _ _)
  · intro h
    exact le_min hp h

theorem kubecontainer.running_ne_exited :
    kubecontainer.ContainerStatusRunning ≠ kubecontainer.ContainerStatusExited := by decide

theorem kubecontainer.running_ne_unknown :
    kubecontainer.ContainerStatusRunning ≠ kubecontainer.ContainerStatusUnknown := by decide

theorem kubecontainer.exited_ne_unknown :
    kubecontainer.ContainerStatusExited ≠ kubecontainer.ContainerStatusUnknown := by decide

namespace dockertools

open kubecontainer

/-! ## The classifier `mapStatus` -/

theorem mapStatus_of_up (s : String) (h : strings.HasPrefix s "Up" = true) :
    mapStatus s = ContainerStatusRunning := by
  simp [mapStatus, h]

theorem mapStatus_of_exited (s : String) (hu : strings.HasPrefix s "Up" = false)
    (he : strings.HasPrefix s "Exited" = true) : mapStatus s = ContainerStatusExited := by
  simp [mapStatus, hu, he]

theorem mapStatus_of_neither (s : String) (hu : strings.HasPrefix s "Up" = false)
    (he : strings.HasPrefix s "Exited" = false) : mapStatus s = ContainerStatusUnknown := by
  simp [mapStatus, hu, he]

/-- C1: `mapStatus s` is Running exactly when `s` begins with the text "Up", Exited exactly
when `s` begins with the text "Exited" and Unknown exactly when it begins with neither, the
comparison being case-sensitive; the four sample texts of the specification are classified
as Running, Exited, Unknown and Unknown. -/
theorem mapStatus_prefix_cases (s : String) :
    (mapStatus s = ContainerStatusRunning ↔ ∃ t : String, s = "Up" ++ t) ∧
    (mapStatus s = ContainerStatusExited ↔ ∃ t : String, s = "Exited" ++ t) ∧
    (mapStatus s = ContainerStatusUnknown ↔
      (¬ ∃ t : String, s = "Up" ++ t) ∧ (¬ ∃ t : String, s = "Exited" ++ t)) ∧
    mapStatus "Up 5 minutes" = ContainerStatusRunning ∧
    mapStatus "Exited (0) 2 hours ago" = ContainerStatusExited ∧
    mapStatus "Created" = ContainerStatusUnknown ∧
    mapStatus "" = ContainerStatusUnknown ∧
    mapStatus "up 5 minutes" = ContainerStatusUnknown ∧
    mapStatus "EXITED (0)" = ContainerStatusUnknown := by
  refine ⟨?_, ?_, ?_, by decide, by decide, by decide, by decide, by decide, by decide⟩
  · rw [← strings.hasPrefix_iff]
    cases hu : strings.HasPrefix s "Up"
    · cases he : strings.HasPrefix s "Exited"
      · rw [mapStatus_of_neither s hu he]
        simpa using fun h => running_ne_unknown h.symm
      · rw [mapStatus_of_exited s hu he]
        simpa using fun h => running_ne_exited h.symm
    · simp [mapStatus_of_up s hu]
  · constructor
    · intro h
      rw [← strings.hasPrefix_iff]
      cases hu : strings.HasPrefix s "Up"
      · cases he : strings.HasPrefix s "Exited"
        · rw [mapStatus_of_neither s hu he] at h
          exact absurd h.symm exited_ne_unknown
        · rfl
      · rw [mapStatus_of_up s hu] at h
        exact absurd h running_ne_exited
    · intro he
      have hu : strings.HasPrefix s "Up" = false := by
        cases hu : strings.HasPrefix s "Up"
        · rfl
        · exact absurd he (strings.up_exited_disjoint s ((strings.hasPrefix_iff s "Up").1 hu))
      exact mapStatus_of_exited s hu ((strings.hasPrefix_iff s "Exited").2 he)
  · rw [← strings.hasPrefix_iff, ← strings.hasPrefix_iff]
    cases hu : strings.HasPrefix s "Up"
    · cases he : strings.HasPrefix s "Exited"
      · simp [mapStatus_of_neither s hu he]
      · rw [mapStatus_of_exited s hu he]
        simpa using exited_ne_unknown
    · rw [mapStatus_of_up s hu]
      simpa using running_ne_unknown

/-! ## The projection `rawToAPIContainerStatus` -/

theorem rawToAPIContainerStatus_eval_running (raw : RawContainerStatus)
    (h : raw.Status = ContainerStatusRunning) :
    rawToAPIContainerStatus (some raw) = some
      { Name := raw.Name
        State := { Running := some { StartedAt := unversioned.NewTime raw.StartedAt } }
        RestartCount := raw.RestartCount
        Image := raw.Image
        ImageID := raw.ImageID
        ContainerID := DockerPrefix ++ raw.ID.ID } := by
  simp only [rawToAPIContainerStatus, h, if_true]

theorem rawToAPIContainerStatus_eval_exited (raw : RawContainerStatus)
    (h : raw.Status = ContainerStatusExited) :
    rawToAPIContainerStatus (some raw) = some
      { Name := raw.Name
        State :=
          { Terminated := some
              { ExitCode := raw.ExitCode
                Reason := raw.Reason
                Message := raw.Message
                StartedAt := unversioned.NewTime raw.StartedAt
                FinishedAt := unversioned.NewTime raw.FinishedAt
                ContainerID := DockerPrefix ++ raw.ID.ID } }
        RestartCount := raw.RestartCount
        Image := raw.Image
        ImageID := raw.ImageID
        ContainerID := DockerPrefix ++ raw.ID.ID } := by
  simp only [rawToAPIContainerStatus, h, running_ne_exited.symm, if_false, if_true]

theorem rawToAPIContainerStatus_eval_other (raw : RawContainerStatus)
    (hr : raw.Status ≠ ContainerStatusRunning) (he : raw.Status ≠ ContainerStatusExited) :
    rawToAPIContainerStatus (some raw) = some
      { Name := raw.Name
        State := { Waiting := some { Reason := "", Message := "" } }
        RestartCount := raw.RestartCount
        Image := raw.Image
        ImageID := raw.ImageID
        ContainerID := DockerPrefix ++ raw.ID.ID } := by
  simp only [rawToAPIContainerStatus, hr, he, if_false]

/-- C2: for a raw status record whose Status is Exited, `rawToAPIContainerStatus` returns a
status whose Terminated variant is populated with the ExitCode, Reason, Message, StartedAt
and FinishedAt of the record, and whose Terminated.ContainerID is the top-level ContainerID
of the result, which is `DockerPrefix` followed by `raw.ID.ID` and so ends with it. -/
theorem rawToAPIContainerStatus_exited (raw : RawContainerStatus)
    (h : raw.Status = ContainerStatusExited) :
    ∃ st : api.ContainerStatus, rawToAPIContainerStatus (some raw) = some st ∧
      st.State.Terminated = some
        { ExitCode := raw.ExitCode
          Signal := 0
          Reason := raw.Reason
          Message := raw.Message
          StartedAt := unversioned.NewTime raw.StartedAt
          FinishedAt := unversioned.NewTime raw.FinishedAt
          ContainerID := st.ContainerID } ∧
      (unversioned.NewTime raw.StartedAt).Time = raw.StartedAt ∧
      (unversioned.NewTime raw.FinishedAt).Time = raw.FinishedAt ∧
      st.ContainerID = DockerPrefix ++ raw.ID.ID ∧
      raw.ID.ID.data <:+ st.ContainerID.data := by
  refine ⟨_, rawToAPIContainerStatus_eval_exited raw h, rfl, rfl, rfl, rfl, ?_⟩
  show raw.ID.ID.data <:+ (DockerPrefix ++ raw.ID.ID).data
  rw [String.data_append]
  exact List.suffix_append _ _

/-- Witness of C2 on `sampleRawExited`. -/
theorem rawToAPIContainerStatus_exited_witness :
    sampleRawExited.Status = ContainerStatusExited ∧
    ∃ st : api.ContainerStatus, rawToAPIContainerStatus (some sampleRawExited) = some st ∧
      st.State.Terminated = some
        { ExitCode := 137
          Signal := 0
          Reason := "OOMKilled"
          Message := "killed"
          StartedAt := ⟨{ sec := 1450000000, nsec := 5 }⟩
          FinishedAt := ⟨{ sec := 1450000600, nsec := 9 }⟩
          ContainerID := "docker://9f3a" } ∧
      st.ContainerID = "docker://9f3a" := by
  refine ⟨rfl, ?_⟩
  obtain ⟨st, h1, h2, _, _, h3, _⟩ := rawToAPIContainerStatus_exited sampleRawExited rfl
  have h4 : st.ContainerID = "docker://9f3a" := by rw [h3]; decide
  refine ⟨st, h1, ?_, h4⟩
  rw [h2, h4]
  rfl

/-- C3: for a raw status record whose Status is neither Running nor Exited (Unknown or any
other value), `rawToAPIContainerStatus` returns a status whose Waiting variant is populated
with an empty record and whose Running and Terminated variants are absent. -/
theorem rawToAPIContainerStatus_other (raw : RawContainerStatus)
    (hr : raw.Status ≠ ContainerStatusRunning) (he : raw.Status ≠ ContainerStatusExited) :
    ∃ st : api.ContainerStatus, rawToAPIContainerStatus (some raw) = some st ∧
      st.State.Waiting = some { Reason := "", Message := "" } ∧
      st.State.Running = none ∧
      st.State.Terminated = none := by
  exact ⟨_, rawToAPIContainerStatus_eval_other raw hr he, rfl, rfl, rfl⟩

/-- Witness of C3 on `sampleRawOther`, whose status is the text "paused". -/
theorem rawToAPIContainerStatus_other_witness :
    sampleRawOther.Status ≠ ContainerStatusRunning ∧
    sampleRawOther.Status ≠ ContainerStatusExited ∧
    sampleRawOther.Status ≠ ContainerStatusUnknown ∧
    ∃ st : api.ContainerStatus, rawToAPIContainerStatus (some sampleRawOther) = some st ∧
      st.State.Waiting = some { Reason := "", Message := "" } ∧
      st.State.Running = none ∧
      st.State.Terminated = none :=
  ⟨by decide, by decide, by decide,
    rawToAPIContainerStatus_other sampleRawOther (by decide) (by decide)⟩

/-- C4: for every raw status record, the State that `rawToAPIContainerStatus` returns has
exactly one of its variants Waiting, Running and Terminated populated, the other two being
absent. -/
theorem rawToAPIContainerStatus_one_variant (raw : RawContainerStatus) :
    ∃ st : api.ContainerStatus, rawToAPIContainerStatus (some raw) = some st ∧
      ((st.State.Waiting.isSome = true ∧ st.State.Running = none ∧
          st.State.Terminated = none) ∨
        (st.State.Waiting = none ∧ st.State.Running.isSome = true ∧
          st.State.Terminated = none) ∨
        (st.State.Waiting = none ∧ st.State.Running = none ∧
          st.State.Terminated.isSome = true)) := by
  by_cases hr : raw.Status = ContainerStatusRunning
  · exact ⟨_, rawToAPIContainerStatus_eval_running raw hr, Or.inr (Or.inl ⟨rfl, rfl, rfl⟩)⟩
  · by_cases he : raw.Status = ContainerStatusExited
    · exact ⟨_, rawToAPIContainerStatus_eval_exited raw he, Or.inr (Or.inr ⟨rfl, rfl, rfl⟩)⟩
    · exact ⟨_, rawToAPIContainerStatus_eval_other raw hr he, Or.inl ⟨rfl, rfl, rfl⟩⟩

/-- C5: for a raw status record whose Status is Running, `rawToAPIContainerStatus` returns a
status whose Running variant is populated with the StartedAt of the record and whose Waiting
and Terminated variants are absent; changing FinishedAt, ExitCode, Reason and Message of the
record leaves the State unchanged. -/
theorem rawToAPIContainerStatus_running (raw : RawContainerStatus)
    (h : raw.Status = ContainerStatusRunning)
    (finishedAt : GoTime) (exitCode : Int) (reason message : String) :
    ∃ st : api.ContainerStatus, rawToAPIContainerStatus (some raw) = some st ∧
      st.State.Running = some { StartedAt := unversioned.NewTime raw.StartedAt } ∧
      (unversioned.NewTime raw.StartedAt).Time = raw.StartedAt ∧
      st.State.Waiting = none ∧
      st.State.Terminated = none ∧
      (rawToAPIContainerStatus (some { raw with
          FinishedAt := finishedAt, ExitCode := exitCode, Reason := reason,
          Message := message })).map (fun st2 => st2.State) = some st.State := by
  refine ⟨_, rawToAPIContainerStatus_eval_running raw h, rfl, rfl, rfl, rfl, ?_⟩
  have h2 := rawToAPIContainerStatus_eval_running { raw with
    FinishedAt := finishedAt, ExitCode := exitCode, Reason := reason, Message := message } h
  rw [h2]
  rfl

/-- Witness of C5 on `sampleRawRunning`. -/
theorem rawToAPIContainerStatus_running_witness :
    sampleRawRunning.Status = ContainerStatusRunning ∧
    ∃ st : api.ContainerStatus, rawToAPIContainerStatus (some sampleRawRunning) = some st ∧
      st.State.Running = some { StartedAt := ⟨{ sec := 1450000000, nsec := 5 }⟩ } ∧
      st.State.Waiting = none ∧
      st.State.Terminated = none := by
  refine ⟨rfl, ?_⟩
  obtain ⟨st, h1, h2, _, h3, h4, _⟩ :=
    rawToAPIContainerStatus_running sampleRawRunning rfl ⟨0, 0⟩ 0 "" ""
  exact ⟨st, h1, h2, h3, h4⟩

/-! ## The adapters `toRuntimeContainer` and `toRuntimeImage` -/

theorem toRuntimeContainer_eval_ok (getInfo : docker.APIContainers → NameInfo)
    (c : docker.APIContainers) (dockerName : KubeletContainerName) (hash : Nat)
    (h : getInfo c = (some dockerName, hash, none)) :
    toRuntimeContainer getInfo (some c) = some (some
      { ID := kubetypes.DockerID.ContainerID c.ID
        Name := dockerName.ContainerName
        Image := c.Image
        Hash := hash
        Created := c.Created
        Status := mapStatus c.Status }, none) := by
  simp only [toRuntimeContainer, h]

/-- C6: for a present listing entry on which `getDockerContainerNameInfo` succeeds,
`toRuntimeContainer` returns a Container and no error; the Container carries the ID of the
entry (as the identifier of its docker-tagged ContainerID), its Image and its Created
unchanged, and its Status is `mapStatus` of the status text of the entry. -/
theorem toRuntimeContainer_preserves (getInfo : docker.APIContainers → NameInfo)
    (c : docker.APIContainers) (dockerName : KubeletContainerName) (hash : Nat)
    (h : getInfo c = (some dockerName, hash, none)) :
    ∃ out : Container, toRuntimeContainer getInfo (some c) = some (some out, none) ∧
      out.ID = kubetypes.DockerID.ContainerID c.ID ∧
      out.ID.ID = c.ID ∧
      out.Image = c.Image ∧
      out.Created = c.Created ∧
      out.Status = mapStatus c.Status :=
  ⟨_, toRuntimeContainer_eval_ok getInfo c dockerName hash h, rfl, rfl, rfl, rfl, rfl⟩

/-- Witness of C6 on `sampleEntry` with `sampleNameInfo`. -/
theorem toRuntimeContainer_preserves_witness :
    sampleNameInfo sampleEntry =
      (some { PodFullName := "pod_default", PodUID := "uid",
              ContainerName := "/k8s_web.1a2b_pod_default_uid_0" }, 6699, none) ∧
    ∃ out : Container,
      toRuntimeContainer sampleNameInfo (some sampleEntry) = some (some out, none) ∧
      out.ID.ID = "9f3a" ∧
      out.Image = "nginx:1.9" ∧
      out.Created = 1450000000 ∧
      out.Status = ContainerStatusRunning := by
  refine ⟨rfl, ?_⟩
  obtain ⟨out, h1, _, h2, h3, h4, h5⟩ :=
    toRuntimeContainer_preserves sampleNameInfo sampleEntry
      { PodFullName := "pod_default", PodUID := "uid",
        ContainerName := "/k8s_web.1a2b_pod_default_uid_0" } 6699 rfl
  refine ⟨out, h1, h2, h3, h4, ?_⟩
  rw [h5]
  decide

/-- C7: on an absent entry (nil) `toRuntimeContainer` returns no Container and the error
"unable to convert a nil pointer to a runtime container", without a panic, and the result
does not depend on `getDockerContainerNameInfo`. -/
theorem toRuntimeContainer_nil (getInfo getInfo2 : docker.APIContainers → NameInfo) :
    toRuntimeContainer getInfo none =
      some (none, some (fmt.Errorf "unable to convert a nil pointer to a runtime container")) ∧
    toRuntimeContainer getInfo none = toRuntimeContainer getInfo2 none :=
  ⟨rfl, rfl⟩

/-- C8: for a present listing entry on which `getDockerContainerNameInfo` fails with the
error `e`, `toRuntimeContainer` returns no Container and the error `e` itself. -/
theorem toRuntimeContainer_propagates (getInfo : docker.APIContainers → NameInfo)
    (c : docker.APIContainers) (dockerName : Option KubeletContainerName) (hash : Nat)
    (e : GoError) (h : getInfo c = (dockerName, hash, some e)) :
    toRuntimeContainer getInfo (some c) = some (none, some e) := by
  simp only [toRuntimeContainer, h]

/-- Witness of C8 on `sampleEntryUnnamed` with `sampleNameInfo`. -/
theorem toRuntimeContainer_propagates_witness :
    sampleNameInfo sampleEntryUnnamed =
      (none, 0, some (fmt.Errorf "Docker container name is empty")) ∧
    toRuntimeContainer sampleNameInfo (some sampleEntryUnnamed) =
      some (none, some (fmt.Errorf "Docker container name is empty")) :=
  ⟨rfl, toRuntimeContainer_propagates sampleNameInfo sampleEntryUnnamed none 0
    (fmt.Errorf "Docker container name is empty") rfl⟩

/-- C9: `toRuntimeImage` fails exactly when the entry is absent: on nil it returns an error
and no Image; on every present entry it returns an Image and no error, also on the entry
with an empty ID, no tag and a negative size. -/
theorem toRuntimeImage_fails_iff_nil (image : Option docker.APIImages) :
    ((toRuntimeImage image).2 ≠ none ↔ image = none) ∧
    ((toRuntimeImage image).1 = none ↔ image = none) ∧
    toRuntimeImage none =
      (none, some (fmt.Errorf "unable to convert a nil pointer to a runtime image")) ∧
    (∀ entry : docker.APIImages, ∃ out : Image, toRuntimeImage (some entry) = (some out, none)) ∧
    toRuntimeImage (some sampleImageEmpty) = (some { ID := "", Tags := [], Size := -1 }, none) := by
  refine ⟨?_, ?_, rfl, fun entry => ⟨_, rfl⟩, rfl⟩
  · cases image <;> simp [toRuntimeImage]
  · cases image <;> simp [toRuntimeImage]

/-- C10: for a present entry the Image that `toRuntimeImage` returns is a field copy: its ID
is the ID of the entry, its Tags are the RepoTags of the entry as the same sequence (same
length, same element at every position) and its Size is the VirtualSize of the entry. -/
theorem toRuntimeImage_field_copy (entry : docker.APIImages) :
    ∃ out : Image, toRuntimeImage (some entry) = (some out, none) ∧
      out.ID = entry.ID ∧
      out.Tags = entry.RepoTags ∧
      out.Tags.length = entry.RepoTags.length ∧
      (∀ i : Nat, out.Tags.get? i = entry.RepoTags.get? i) ∧
      out.Size = entry.VirtualSize ∧
      toRuntimeImage (some sampleImage) =
        (some { ID := "sha-77", Tags := ["nginx:1.9", "nginx:latest"], Size := 134000000 },
          none) :=
  ⟨_, rfl, rfl, rfl, rfl, fun _ => rfl, rfl, rfl⟩

/-! ## Shared lemmas on the classifier and on the fields of the projection -/

theorem mapStatus_cases (s : String) :
    (strings.HasPrefix s "Up" = true ∧ mapStatus s = ContainerStatusRunning) ∨
    (strings.HasPrefix s "Up" = false ∧ strings.HasPrefix s "Exited" = true ∧
      mapStatus s = ContainerStatusExited) ∨
    (strings.HasPrefix s "Up" = false ∧ strings.HasPrefix s "Exited" = false ∧
      mapStatus s = ContainerStatusUnknown) := by
  cases hu : strings.HasPrefix s "Up"
  · cases he : strings.HasPrefix s "Exited"
    · exact Or.inr (Or.inr ⟨rfl, rfl, mapStatus_of_neither s hu he⟩)
    · exact Or.inr (Or.inl ⟨rfl, rfl, mapStatus_of_exited s hu he⟩)
  · exact Or.inl ⟨rfl, mapStatus_of_up s hu⟩

theorem rawToAPIContainerStatus_fields (raw : RawContainerStatus) :
    ∃ st : api.ContainerStatus, rawToAPIContainerStatus (some raw) = some st ∧
      st.Name = raw.Name ∧
      st.RestartCount = raw.RestartCount ∧
      st.Image = raw.Image ∧
      st.ImageID = raw.ImageID ∧
      st.ContainerID = DockerPrefix ++ raw.ID.ID := by
  by_cases hr : raw.Status = ContainerStatusRunning
  · exact ⟨_, rawToAPIContainerStatus_eval_running raw hr, rfl, rfl, rfl, rfl, rfl⟩
  · by_cases he : raw.Status = ContainerStatusExited
    · exact ⟨_, rawToAPIContainerStatus_eval_exited raw he, rfl, rfl, rfl, rfl, rfl⟩
    · exact ⟨_, rawToAPIContainerStatus_eval_other raw hr he, rfl, rfl, rfl, rfl, rfl⟩

/-! ## Invariants, totality and frame -/

/-- C11, as amended: for a present listing entry on which `getDockerContainerNameInfo`
succeeds, the Container that `toRuntimeContainer` returns has an ID tagged with the scheme
"docker", so the ID is never the zero ContainerID, and the identifier of that ID is the ID
of the entry: it is non-empty whenever the ID of the entry is non-empty. -/
theorem toRuntimeContainer_id_tagged (getInfo : docker.APIContainers → NameInfo)
    (c : docker.APIContainers) (dockerName : KubeletContainerName) (hash : Nat)
    (h : getInfo c = (some dockerName, hash, none)) :
    ∃ out : Container, toRuntimeContainer getInfo (some c) = some (some out, none) ∧
      out.ID.Type_ = "docker" ∧
      out.ID ≠ { Type_ := "", ID := "" } ∧
      out.ID.ID = c.ID ∧
      (c.ID ≠ "" → out.ID.ID ≠ "") := by
  refine ⟨_, toRuntimeContainer_eval_ok getInfo c dockerName hash h, rfl, ?_, rfl, fun hc => hc⟩
  intro hz
  have ht := congrArg ContainerID.Type_ hz
  revert ht
  show ("docker" : String) = "" → False
  decide

/-- Witness of C11 as amended, on `sampleEntry` with `sampleNameInfo`. -/
theorem toRuntimeContainer_id_tagged_witness :
    sampleNameInfo sampleEntry =
      (some { PodFullName := "pod_default", PodUID := "uid",
              ContainerName := "/k8s_web.1a2b_pod_default_uid_0" }, 6699, none) ∧
    sampleEntry.ID ≠ "" ∧
    ∃ out : Container,
      toRuntimeContainer sampleNameInfo (some sampleEntry) = some (some out, none) ∧
      out.ID.Type_ = "docker" ∧
      out.ID.ID ≠ "" := by
  refine ⟨rfl, by decide, ?_⟩
  obtain ⟨out, h1, h2, _, _, h3⟩ :=
    toRuntimeContainer_id_tagged sampleNameInfo sampleEntry
      { PodFullName := "pod_default", PodUID := "uid",
        ContainerName := "/k8s_web.1a2b_pod_default_uid_0" } 6699 rfl
  exact ⟨out, h1, h2, h3 (by decide)⟩

/-- Counterexample to C11 as stated: on `sampleEntryNoID`, whose ID is the empty string,
`getDockerContainerNameInfo` (here `sampleNameInfo`) succeeds and `toRuntimeContainer`
returns a Container without an error, yet the identifier of its ID is empty. -/
theorem toRuntimeContainer_id_can_be_empty :
    ∃ out : Container,
      toRuntimeContainer sampleNameInfo (some sampleEntryNoID) = some (some out, none) ∧
      out.ID = { Type_ := "docker", ID := "" } ∧
      ¬ (out.ID.ID ≠ "") :=
  ⟨_, rfl, rfl, fun hne => hne rfl⟩

/-- C12: `rawToAPIContainerStatus` never fails on a raw status record: for every record,
whatever its Status and its other fields, it returns a status. -/
theorem rawToAPIContainerStatus_total (raw : RawContainerStatus) :
    (∃ st : api.ContainerStatus, rawToAPIContainerStatus (some raw) = some st) ∧
    (rawToAPIContainerStatus (some raw)).isSome = true := by
  obtain ⟨st, h, _⟩ := rawToAPIContainerStatus_fields raw
  exact ⟨⟨st, h⟩, by rw [h]; rfl⟩

/-- C13: `mapStatus` returns one of Running, Exited and Unknown on every string, the empty
string included, and a string that begins with neither "Up" nor "Exited" is mapped to
Unknown. -/
theorem mapStatus_total (s : String) :
    (mapStatus s = ContainerStatusRunning ∨ mapStatus s = ContainerStatusExited ∨
      mapStatus s = ContainerStatusUnknown) ∧
    mapStatus "" = ContainerStatusUnknown ∧
    (mapStatus s = ContainerStatusUnknown ↔
      (¬ ∃ t : String, s = "Up" ++ t) ∧ (¬ ∃ t : String, s = "Exited" ++ t)) := by
  refine ⟨?_, by decide, ?_⟩
  · rcases mapStatus_cases s with ⟨_, h⟩ | ⟨_, _, h⟩ | ⟨_, _, h⟩
    · exact Or.inl h
    · exact Or.inr (Or.inl h)
    · exact Or.inr (Or.inr h)
  · rw [← strings.hasPrefix_iff, ← strings.hasPrefix_iff]
    rcases mapStatus_cases s with ⟨hu, h⟩ | ⟨_, he, h⟩ | ⟨hu, he, h⟩
    · rw [h, hu]
      simpa using running_ne_unknown
    · rw [h, he]
      simpa using exited_ne_unknown
    · rw [h, hu, he]
      simp

/-- C14: for every raw status record, `rawToAPIContainerStatus` copies Name, RestartCount,
Image and ImageID into the result and sets ContainerID to `DockerPrefix` followed by
`raw.ID.ID`; the record with any other Status, StartedAt, FinishedAt, ExitCode, Reason and
Message gives the same five fields. -/
theorem rawToAPIContainerStatus_frame (raw : RawContainerStatus)
    (status : ContainerStatus) (startedAt finishedAt : GoTime) (exitCode : Int)
    (reason message : String) :
    ∃ st st2 : api.ContainerStatus,
      rawToAPIContainerStatus (some raw) = some st ∧
      rawToAPIContainerStatus (some { raw with
        Status := status, StartedAt := startedAt, FinishedAt := finishedAt,
        ExitCode := exitCode, Reason := reason, Message := message }) = some st2 ∧
      st.Name = raw.Name ∧
      st.RestartCount = raw.RestartCount ∧
      st.Image = raw.Image ∧
      st.ImageID = raw.ImageID ∧
      st.ContainerID = DockerPrefix ++ raw.ID.ID ∧
      st2.Name = st.Name ∧
      st2.RestartCount = st.RestartCount ∧
      st2.Image = st.Image ∧
      st2.ImageID = st.ImageID ∧
      st2.ContainerID = st.ContainerID := by
  obtain ⟨st, h, h1, h2, h3, h4, h5⟩ := rawToAPIContainerStatus_fields raw
  obtain ⟨st2, k, k1, k2, k3, k4, k5⟩ := rawToAPIContainerStatus_fields { raw with
    Status := status, StartedAt := startedAt, FinishedAt := finishedAt,
    ExitCode := exitCode, Reason := reason, Message := message }
  exact ⟨st, st2, h, k, h1, h2, h3, h4, h5, k1.trans h1.symm, k2.trans h2.symm,
    k3.trans h3.symm, k4.trans h4.symm, k5.trans h5.symm⟩

/-! ## Determinism, composition and the qualified identifier -/

/-- C15: each conversion is a function of its input alone: equal raw records give equal
results of `toRuntimeImage` and of `rawToAPIContainerStatus`, and equal entries together
with name parsers that agree on the entry give equal results of `toRuntimeContainer`. -/
theorem conversions_deterministic (getInfo getInfo2 : docker.APIContainers → NameInfo)
    (c c2 : Option docker.APIContainers) (image image2 : Option docker.APIImages)
    (raw raw2 : Option RawContainerStatus)
    (hc : c = c2) (hg : ∀ e : docker.APIContainers, c = some e → getInfo e = getInfo2 e)
    (hi : image = image2) (hr : raw = raw2) :
    toRuntimeContainer getInfo c = toRuntimeContainer getInfo2 c2 ∧
    toRuntimeImage image = toRuntimeImage image2 ∧
    rawToAPIContainerStatus raw = rawToAPIContainerStatus raw2 := by
  subst hc hi hr
  refine ⟨?_, rfl, rfl⟩
  cases c with
  | none => rfl
  | some e => simp only [toRuntimeContainer, hg e rfl]

/-- Witness of C15 on the sample records, with `sampleNameInfo` and a second name parser
that agrees with it on `sampleEntry`. -/
theorem conversions_deterministic_witness :
    toRuntimeContainer sampleNameInfo (some sampleEntry) =
      toRuntimeContainer
        (fun _ => (some { PodFullName := "pod_default", PodUID := "uid",
                          ContainerName := "/k8s_web.1a2b_pod_default_uid_0" }, 6699, none))
        (some sampleEntry) ∧
    toRuntimeImage (some sampleImage) = toRuntimeImage (some sampleImage) ∧
    rawToAPIContainerStatus (some sampleRawExited) =
      rawToAPIContainerStatus (some sampleRawExited) :=
  conversions_deterministic sampleNameInfo _ (some sampleEntry) (some sampleEntry)
    (some sampleImage) (some sampleImage) (some sampleRawExited) (some sampleRawExited)
    rfl (fun e he => by cases he; rfl) rfl rfl

/-- C16: for a status text `s` and a raw status record whose Status is `mapStatus s`,
`rawToAPIContainerStatus` populates Running only if `s` begins with "Up", populates
Terminated only if `s` begins with "Exited", and populates Waiting whenever `s` begins with
neither. -/
theorem rawToAPIContainerStatus_of_mapStatus (s : String) (raw : RawContainerStatus)
    (h : raw.Status = mapStatus s) :
    ∃ st : api.ContainerStatus, rawToAPIContainerStatus (some raw) = some st ∧
      (st.State.Running.isSome = true → ∃ t : String, s = "Up" ++ t) ∧
      (st.State.Terminated.isSome = true → ∃ t : String, s = "Exited" ++ t) ∧
      ((¬ ∃ t : String, s = "Up" ++ t) → (¬ ∃ t : String, s = "Exited" ++ t) →
        st.State.Waiting.isSome = true) := by
  rcases mapStatus_cases s with ⟨hu, hm⟩ | ⟨_, he, hm⟩ | ⟨hu, he, hm⟩
  · refine ⟨_, rawToAPIContainerStatus_eval_running raw (h.trans hm), ?_, ?_, ?_⟩
    · exact fun _ => (strings.hasPrefix_iff s "Up").1 hu
    · intro ht
      simp at ht
    · exact fun hn _ => absurd ((strings.hasPrefix_iff s "Up").1 hu) hn
  · refine ⟨_, rawToAPIContainerStatus_eval_exited raw (h.trans hm), ?_, ?_, ?_⟩
    · intro ht
      simp at ht
    · exact fun _ => (strings.hasPrefix_iff s "Exited").1 he
    · exact fun _ hn => absurd ((strings.hasPrefix_iff s "Exited").1 he) hn
  · have hr : raw.Status ≠ ContainerStatusRunning := by
      rw [h, hm]
      exact fun hx => running_ne_unknown hx.symm
    have hx : raw.Status ≠ ContainerStatusExited := by
      rw [h, hm]
      exact fun hx => exited_ne_unknown hx.symm
    refine ⟨_, rawToAPIContainerStatus_eval_other raw hr hx, ?_, ?_, ?_⟩
    · intro ht
      simp at ht
    · intro ht
      simp at ht
    · exact fun _ _ => rfl

/-- Witness of C16 on the text "Created" and the record `sampleRawExited` with the status
`mapStatus "Created"`: Waiting is populated. -/
theorem rawToAPIContainerStatus_of_mapStatus_witness :
    ({ sampleRawExited with Status := mapStatus "Created" } : RawContainerStatus).Status =
      mapStatus "Created" ∧
    ∃ st : api.ContainerStatus,
      rawToAPIContainerStatus (some { sampleRawExited with Status := mapStatus "Created" }) =
        some st ∧
      st.State.Waiting.isSome = true := by
  refine ⟨rfl, ?_⟩
  obtain ⟨st, h1, _, _, h2⟩ :=
    rawToAPIContainerStatus_of_mapStatus "Created"
      { sampleRawExited with Status := mapStatus "Created" } rfl
  refine ⟨st, h1, h2 ?_ ?_⟩
  · rw [← strings.hasPrefix_iff]
    decide
  · rw [← strings.hasPrefix_iff]
    decide

/-- C17: for a present listing entry on which `getDockerContainerNameInfo` succeeds with a
name record and a hash, the Container that `toRuntimeContainer` returns has the
ContainerName of that record as its Name and that hash as its Hash; another entry with the
same two results of the name parser gives the same Name and Hash. -/
theorem toRuntimeContainer_name_hash (getInfo getInfo2 : docker.APIContainers → NameInfo)
    (c c2 : docker.APIContainers) (dockerName : KubeletContainerName) (hash : Nat)
    (h : getInfo c = (some dockerName, hash, none))
    (h2 : getInfo2 c2 = (some dockerName, hash, none)) :
    ∃ out out2 : Container,
      toRuntimeContainer getInfo (some c) = some (some out, none) ∧
      toRuntimeContainer getInfo2 (some c2) = some (some out2, none) ∧
      out.Name = dockerName.ContainerName ∧
      out.Hash = hash ∧
      out2.Name = out.Name ∧
      out2.Hash = out.Hash :=
  ⟨_, _, toRuntimeContainer_eval_ok getInfo c dockerName hash h,
    toRuntimeContainer_eval_ok getInfo2 c2 dockerName hash h2, rfl, rfl, rfl, rfl⟩

/-- Witness of C17 on `sampleEntry` and `sampleEntryNoID`, which carry the same name. -/
theorem toRuntimeContainer_name_hash_witness :
    sampleNameInfo sampleEntry = sampleNameInfo sampleEntryNoID ∧
    ∃ out out2 : Container,
      toRuntimeContainer sampleNameInfo (some sampleEntry) = some (some out, none) ∧
      toRuntimeContainer sampleNameInfo (some sampleEntryNoID) = some (some out2, none) ∧
      out.Name = "/k8s_web.1a2b_pod_default_uid_0" ∧
      out.Hash = 6699 ∧
      out2.Name = out.Name ∧
      out2.Hash = out.Hash :=
  ⟨rfl, toRuntimeContainer_name_hash sampleNameInfo sampleNameInfo sampleEntry sampleEntryNoID
    { PodFullName := "pod_default", PodUID := "uid",
      ContainerName := "/k8s_web.1a2b_pod_default_uid_0" } 6699 rfl rfl⟩

/-- C18: a classification as Running or Exited is kept when text is appended; `mapStatus`
gives the same result on a string and on its first six characters; no string begins with
both "Up" and "Exited"; and testing "Exited" before "Up" gives the same result. -/
theorem mapStatus_stable (s t : String) :
    (mapStatus s = ContainerStatusRunning ∨ mapStatus s = ContainerStatusExited →
      mapStatus (s ++ t) = mapStatus s) ∧
    mapStatus s = mapStatus (String.mk (s.data.take 6)) ∧
    ¬ ((∃ u : String, s = "Up" ++ u) ∧ (∃ u : String, s = "Exited" ++ u)) ∧
    mapStatus s = mapStatusExitedFirst s := by
  refine ⟨?_, ?_, ?_, ?_⟩
  · intro h
    rcases mapStatus_cases s with ⟨hu, hm⟩ | ⟨hu, he, hm⟩ | ⟨_, _, hm⟩
    · rw [hm]
      exact mapStatus_of_up _ (strings.hasPrefix_append s t "Up" hu)
    · rw [hm]
      have he2 := strings.hasPrefix_append s t "Exited" he
      have hu2 : strings.HasPrefix (s ++ t) "Up" = false := by
        cases hx : strings.HasPrefix (s ++ t) "Up"
        · rfl
        · exact absurd ((strings.hasPrefix_iff _ "Exited").1 he2)
            (strings.up_exited_disjoint _ ((strings.hasPrefix_iff _ "Up").1 hx))
      exact mapStatus_of_exited _ hu2 he2
    · rw [hm] at h
      rcases h with h | h
      · exact absurd h.symm running_ne_unknown
      · exact absurd h.symm exited_ne_unknown
  · have h2 := strings.hasPrefix_take s "Up" 6 (by decide)
    have h6 := strings.hasPrefix_take s "Exited" 6 (by decide)
    simp only [mapStatus, h2, h6]
  · rintro ⟨hu, he⟩
    exact strings.up_exited_disjoint s hu he
  · rcases mapStatus_cases s with ⟨hu, hm⟩ | ⟨hu, he, hm⟩ | ⟨hu, he, hm⟩
    · have he : strings.HasPrefix s "Exited" = false := by
        cases hx : strings.HasPrefix s "Exited"
        · rfl
        · exact absurd ((strings.hasPrefix_iff s "Exited").1 hx)
            (strings.up_exited_disjoint s ((strings.hasPrefix_iff s "Up").1 hu))
      simp [hm, mapStatusExitedFirst, hu, he]
    · simp [hm, mapStatusExitedFirst, he]
    · simp [hm, mapStatusExitedFirst, hu, he]

/-- Witness of C18 on the text "Up" extended by " 5 minutes". -/
theorem mapStatus_stable_witness :
    mapStatus "Up" = ContainerStatusRunning ∧
    mapStatus ("Up" ++ " 5 minutes") = mapStatus "Up" :=
  ⟨by decide, (mapStatus_stable "Up" " 5 minutes").1 (Or.inl (by decide))⟩

/-- C19: the qualified ContainerID that `rawToAPIContainerStatus` produces, at the top
level and in Terminated, is `DockerPrefix` followed by the identifier `raw.ID.ID`, so it
begins with `DockerPrefix`; replacing the Type of `raw.ID` by any other text leaves the
whole result unchanged. -/
theorem rawToAPIContainerStatus_ignores_type (raw : RawContainerStatus) (ty : String) :
    rawToAPIContainerStatus (some { raw with ID := { raw.ID with Type_ := ty } }) =
      rawToAPIContainerStatus (some raw) ∧
    (∃ st : api.ContainerStatus, rawToAPIContainerStatus (some raw) = some st ∧
      st.ContainerID = DockerPrefix ++ raw.ID.ID ∧
      DockerPrefix.data <+: st.ContainerID.data ∧
      (∀ term : api.ContainerStateTerminated, st.State.Terminated = some term →
        term.ContainerID = DockerPrefix ++ raw.ID.ID)) ∧
    DockerPrefix = "docker://" ∧
    rawToAPIContainerStatus (some sampleRawExitedRkt) =
      rawToAPIContainerStatus (some sampleRawExited) := by
  refine ⟨rfl, ?_, rfl, rfl⟩
  by_cases hr : raw.Status = ContainerStatusRunning
  · refine ⟨_, rawToAPIContainerStatus_eval_running raw hr, rfl, ?_, ?_⟩
    · show DockerPrefix.data <+: (DockerPrefix ++ raw.ID.ID).data
      rw [String.data_append]
      exact List.prefix_append _ _
    · intro term ht
      simp at ht
  · by_cases he : raw.Status = ContainerStatusExited
    · refine ⟨_, rawToAPIContainerStatus_eval_exited raw he, rfl, ?_, ?_⟩
      · show DockerPrefix.data <+: (DockerPrefix ++ raw.ID.ID).data
        rw [String.data_append]
        exact List.prefix_append _ _
      · intro term ht
        simp only [Option.some.injEq] at ht
        rw [← ht]
    · refine ⟨_, rawToAPIContainerStatus_eval_other raw hr he, rfl, ?_, ?_⟩
      · show DockerPrefix.data <+: (DockerPrefix ++ raw.ID.ID).data
        rw [String.data_append]
        exact List.prefix_append _ _
      · intro term ht
        simp at ht

end dockertools
